import Mathlib

/-!
Shallow embedding of `vpr/src/place/place_util.h` from the VTR
(Verilog-to-Routing) placer: the placement cost state (`t_placer_costs`),
the annealing state (`t_annealing_state`), and the schedule update
operations declared in that header.

Doubles and floats are modelled as exact rationals (`ℚ`); `int` fields as
`ℤ`.  The header under `src/` only declares the mutator bodies
(`update_norm_factors`, the `t_annealing_state` constructor,
`outer_loop_update`, `update_rlim`, `update_crit_exponent`,
`update_move_lim`, `get_std_dev` live in `place_util.cpp`, which is not
part of the sources); those bodies are modelled from the specification
and are marked `Modelled from the spec:` in their doc comments.  The one
function body that does appear in the header — the inline
`t_placer_costs` constructor — is embedded directly from the source.
-/

namespace PlaceUtil

/-- Placement algorithm selector.  `t_place_algorithm` comes from
`vpr_types.h` (outside this core); the spec describes it as a closed
enumeration selecting which cost components matter.  Its members are
opaque to every operation modelled here. -/
inductive e_place_algorithm
  | BOUNDING_BOX_PLACE
  | CRITICALITY_TIMING_PLACE
deriving DecidableEq, Repr

/-- Embedding of `class t_placer_costs` (place_util.h lines 41-59):
five public `double` members and the private `place_algorithm`.
The private constant `MAX_INV_TIMING_COST = 1.e9` is modelled as the
global constant `MAX_INV_TIMING_COST` below. -/
structure t_placer_costs where
  cost : ℚ
  bb_cost : ℚ
  timing_cost : ℚ
  bb_cost_norm : ℚ
  timing_cost_norm : ℚ
  place_algorithm : e_place_algorithm
deriving DecidableEq, Repr

/-- Private member `MAX_INV_TIMING_COST = 1.e9` of `t_placer_costs`
(place_util.h line 57). -/
def MAX_INV_TIMING_COST : ℚ := 10 ^ 9

/-- Indeterminate values occupying the five uninitialized `double`
members of a freshly constructed `t_placer_costs`.  C++ leaves such
members with arbitrary (indeterminate) contents; the embedding makes
that garbage an explicit parameter of the constructor. -/
structure t_placer_costs_indet where
  cost : ℚ
  bb_cost : ℚ
  timing_cost : ℚ
  bb_cost_norm : ℚ
  timing_cost_norm : ℚ
deriving DecidableEq, Repr

/-- Embedding of the inline constructor
`t_placer_costs(t_place_algorithm algo) : place_algorithm(algo) {}`
(place_util.h lines 50-51).  The member-initializer list names only
`place_algorithm`; the five public `double` members receive no
initializer, so they keep whatever indeterminate values `indet`
supplies. -/
def t_placer_costs.ctor (algo : e_place_algorithm) (indet : t_placer_costs_indet) :
    t_placer_costs :=
  { cost := indet.cost
    bb_cost := indet.bb_cost
    timing_cost := indet.timing_cost
    bb_cost_norm := indet.bb_cost_norm
    timing_cost_norm := indet.timing_cost_norm
    place_algorithm := algo }

/-- Division that refuses a zero divisor, used to make "no division by
zero happens" a checkable statement about the modelled updates. -/
def qdiv? (x y : ℚ) : Option ℚ :=
  if y = 0 then none else some (x / y)

/-- Modelled from the spec: the body of
`t_placer_costs::update_norm_factors()` is declared at place_util.h
line 54 but defined in `place_util.cpp`, which is not among the
sources.  Per the spec it recomputes `bb_cost_norm = 1 / bb_cost` and
`timing_cost_norm = min(1 / timing_cost, MAX_INV_TIMING_COST)`, with the
guard that a cost term equal to zero makes its normalization factor the
fixed safe constant `1.0` instead of dividing by zero. -/
def t_placer_costs.update_norm_factors (c : t_placer_costs) : t_placer_costs :=
  { c with
    bb_cost_norm := if c.bb_cost = 0 then 1 else 1 / c.bb_cost
    timing_cost_norm :=
      if c.timing_cost = 0 then 1 else min (1 / c.timing_cost) MAX_INV_TIMING_COST }

/-- The wiring normalization factor computed with checked division:
`some` exactly when no division by zero occurs on that path. -/
def bb_norm_checked (c : t_placer_costs) : Option ℚ :=
  if c.bb_cost = 0 then some 1 else qdiv? 1 c.bb_cost

/-- The timing normalization factor computed with checked division:
`some` exactly when no division by zero occurs on that path. -/
def timing_norm_checked (c : t_placer_costs) : Option ℚ :=
  if c.timing_cost = 0 then some 1
  else (qdiv? 1 c.timing_cost).map (fun q => min q MAX_INV_TIMING_COST)

/-- Annealing schedule kind: manual (user-supplied decay factor) versus
automatic (decay derived from the observed success rate).  Modelled from
the spec: `t_annealing_sched` lives outside this core; the spec
describes it as a configuration bundle selecting manual-vs-automatic
schedule and its decay/restart parameters. -/
inductive e_sched_type
  | AUTO_SCHED
  | USER_SCHED
deriving DecidableEq, Repr

/-- Modelled from the spec: the `t_annealing_sched` configuration bundle
(declared in `vpr_types.h`, outside the sources): schedule kind, the
manual decay factor `alpha`, the exit threshold expressed as a fraction
of `restart_t`, and the minimum success rate below which annealing stops
once `rlim` has reached `FINAL_RLIM`. -/
structure t_annealing_sched where
  type : e_sched_type
  alpha_t : ℚ
  t_exit_frac : ℚ
  success_min : ℚ
deriving DecidableEq, Repr

/-- Modelled from the spec: the `t_placer_opts` configuration bundle
(declared in `vpr_types.h`, outside the sources) with the options this
core consumes: criticality-exponent bounds, success-rate target, and the
algorithm choice. -/
structure t_placer_opts where
  crit_exponent_min : ℚ
  crit_exponent_max : ℚ
  success_target : ℚ
  algorithm : e_place_algorithm
deriving DecidableEq, Repr

/-- Embedding of `class t_annealing_state` (place_util.h lines 99-132):
the public annealing variables plus the private constants `UPPER_RLIM`,
`FINAL_RLIM` and `INVERSE_DELTA_RLIM`. -/
structure t_annealing_state where
  t : ℚ
  rlim : ℚ
  alpha : ℚ
  restart_t : ℚ
  crit_exponent : ℚ
  move_lim_max : ℤ
  move_lim : ℤ
  success_rate : ℚ
  num_temps : ℤ
  UPPER_RLIM : ℚ
  FINAL_RLIM : ℚ
  INVERSE_DELTA_RLIM : ℚ
deriving DecidableEq, Repr

/-- Modelled from the spec: the body of the `t_annealing_state`
constructor (declared at place_util.h lines 117-121) is defined in
`place_util.cpp`, which is not among the sources.  Per the spec it sets
`t = restart_t = first_t`, `rlim = UPPER_RLIM = first_rlim`,
`move_lim_max = move_lim = first_move_lim`,
`crit_exponent = first_crit_exponent`, `alpha` from the schedule
configuration, `success_rate = 0`, `num_temps = 0`, `FINAL_RLIM = 1`,
and `INVERSE_DELTA_RLIM = 1 / (UPPER_RLIM - FINAL_RLIM)`. -/
def t_annealing_state.ctor (annealing_sched : t_annealing_sched)
    (first_t first_rlim : ℚ) (first_move_lim : ℤ) (first_crit_exponent : ℚ) :
    t_annealing_state :=
  { t := first_t
    rlim := first_rlim
    alpha := annealing_sched.alpha_t
    restart_t := first_t
    crit_exponent := first_crit_exponent
    move_lim_max := first_move_lim
    move_lim := first_move_lim
    success_rate := 0
    num_temps := 0
    UPPER_RLIM := first_rlim
    FINAL_RLIM := 1
    INVERSE_DELTA_RLIM := 1 / (first_rlim - 1) }

/-- Modelled from the spec: the step size of the range-limit shrink.
The spec pins only the shape — `rlim` moves toward `FINAL_RLIM` in
proportion to `(1 - success_rate)` — and leaves the proportionality
constant to the implementation; a representative constant is used. -/
def RLIM_SHRINK_COEFF : ℚ := 44 / 100

/-- Modelled from the spec: the body of
`t_annealing_state::update_rlim()` (declared at place_util.h line 129)
is defined in `place_util.cpp`, which is not among the sources.  Per the
spec it moves `rlim` toward `FINAL_RLIM` in proportion to
`(1 - success_rate)` and clamps the result to
`[FINAL_RLIM, UPPER_RLIM]`. -/
def t_annealing_state.update_rlim (s : t_annealing_state) : t_annealing_state :=
  let shrunk := s.rlim - (s.rlim - s.FINAL_RLIM) * (RLIM_SHRINK_COEFF * (1 - s.success_rate))
  { s with rlim := max s.FINAL_RLIM (min shrunk s.UPPER_RLIM) }

/-- Modelled from the spec: the body of
`t_annealing_state::update_crit_exponent()` (declared at place_util.h
line 130) is defined in `place_util.cpp`, which is not among the
sources.  Per the spec it linearly interpolates `crit_exponent` between
the configured minimum and maximum exponent bounds with interpolation
fraction `(UPPER_RLIM - rlim) * INVERSE_DELTA_RLIM`; when
`UPPER_RLIM == FINAL_RLIM` the interpolation is degenerate and
`crit_exponent` is held at its current (initial) value. -/
def t_annealing_state.update_crit_exponent (s : t_annealing_state)
    (placer_opts : t_placer_opts) : t_annealing_state :=
  if s.UPPER_RLIM = s.FINAL_RLIM then s
  else
    let frac := (s.UPPER_RLIM - s.rlim) * s.INVERSE_DELTA_RLIM
    { s with crit_exponent :=
        placer_opts.crit_exponent_min
          + frac * (placer_opts.crit_exponent_max - placer_opts.crit_exponent_min) }

/-- Modelled from the spec: the epsilon floor applied to `success_rate`
before dividing in `update_move_lim`; the spec requires an
epsilon-floored denominator but leaves the constant open. -/
def EPS_SUCCESS : ℚ := 1 / 10 ^ 10

/-- The raw (pre-clamp) move-limit value of `update_move_lim`, computed
with checked division: `some` exactly when no division by zero occurs. -/
def move_lim_raw? (s : t_annealing_state) (success_target : ℚ) : Option ℚ :=
  qdiv? ((s.move_lim_max : ℚ) * success_target) (max s.success_rate EPS_SUCCESS)

/-- Modelled from the spec: the body of
`t_annealing_state::update_move_lim(float success_target)` (declared at
place_util.h line 131) is defined in `place_util.cpp`, which is not
among the sources.  Per the spec it sets
`move_lim = clamp(move_lim_max * success_target / max(success_rate, eps), 1, move_lim_max)`;
the real-valued quotient is truncated into the `int` member before
clamping. -/
def t_annealing_state.update_move_lim (s : t_annealing_state) (success_target : ℚ) :
    t_annealing_state :=
  let raw : ℚ := (s.move_lim_max : ℚ) * success_target / max s.success_rate EPS_SUCCESS
  { s with move_lim := max 1 (min s.move_lim_max ⌊raw⌋) }

/-- Modelled from the spec: the automatic-schedule decay factor as a
function of the observed success rate.  The spec sketches only the
shape (faster decay when the success rate is high, slower decay as it
collapses toward zero) and marks the exact numeric curve as an open
policy question; a representative step curve with that shape is used.
No claim depends on the particular constants. -/
def auto_alpha (success_rate : ℚ) : ℚ :=
  if 96 / 100 < success_rate then 1 / 2
  else if 8 / 10 < success_rate then 9 / 10
  else if 15 / 100 < success_rate then 95 / 100
  else 8 / 10

/-- Modelled from the spec: the body of
`t_annealing_state::outer_loop_update(costs, placer_opts, annealing_sched)`
(declared at place_util.h lines 124-126) is defined in
`place_util.cpp`, which is not among the sources.  Per the spec it runs,
in this fixed order: (1) temperature decay — `t *= alpha` under a manual
schedule, `alpha` recomputed from the success rate under an automatic
one; (2) `update_rlim()`; (3) `update_crit_exponent(placer_opts)`;
(4) `update_move_lim(success_target)`; (5) `num_temps` increment;
(6) the continue/stop decision: continue while `t` is above the
configured fraction of `restart_t`, stopping also when `rlim` has
reached `FINAL_RLIM` with the success rate below the configured minimum.
The `costs` argument carries the algorithm-specific cost feedback the
spec mentions; none of the modelled steps reads it. -/
def t_annealing_state.outer_loop_update (s : t_annealing_state)
    (costs : t_placer_costs) (placer_opts : t_placer_opts)
    (annealing_sched : t_annealing_sched) : t_annealing_state × Bool :=
  let s1 := match annealing_sched.type with
    | e_sched_type.USER_SCHED => { s with t := s.t * s.alpha }
    | e_sched_type.AUTO_SCHED =>
        let a := auto_alpha s.success_rate
        { s with t := s.t * a, alpha := a }
  let s2 := s1.update_rlim
  let s3 := s2.update_crit_exponent placer_opts
  let s4 := s3.update_move_lim placer_opts.success_target
  let s5 := { s4 with num_temps := s4.num_temps + 1 }
  let keep_going :=
    decide (annealing_sched.t_exit_frac * s5.restart_t < s5.t)
      && !(decide (s5.rlim ≤ s5.FINAL_RLIM) && decide (s5.success_rate < annealing_sched.success_min))
  (s5, keep_going)

/-- Modelled from the spec: the body of
`get_std_dev(int n, double sum_x_squared, double av_x)` (declared at
place_util.h line 141) is defined in `place_util.cpp`, which is not
among the sources.  Per the spec the function returns
`sqrt(max(sum_x_squared / n - av_x^2, 0))`, with the sentinel `0` when
`n == 0`.  This definition is the radicand together with that sentinel:
the exact-rational value under the square root.  The returned standard
deviation is `Real.sqrt` of it; the clamp makes the radicand
nonnegative, so the square root is a genuine real root (the
floating-point function never produces a NaN). -/
def get_std_dev_rad (n : ℤ) (sum_x_squared av_x : ℚ) : ℚ :=
  if n = 0 then 0 else max (sum_x_squared / (n : ℚ) - av_x ^ 2) 0

/-- Runs one `update_rlim()` per entry of `rates`, the entry being the
`success_rate` observed for that outer iteration (the owning loop writes
`success_rate` before the annealing state is updated). -/
def run_rlim_updates (s : t_annealing_state) : List ℚ → t_annealing_state
  | [] => s
  | r :: rs => run_rlim_updates (t_annealing_state.update_rlim { s with success_rate := r }) rs

/-- Projection fact: `update_rlim` does not change the temperature. -/
theorem update_rlim_t_eq (s : t_annealing_state) : s.update_rlim.t = s.t := rfl

/-- Projection fact: `update_crit_exponent` does not change the temperature. -/
theorem update_crit_exponent_t_eq (s : t_annealing_state) (placer_opts : t_placer_opts) :
    (s.update_crit_exponent placer_opts).t = s.t := by
  unfold t_annealing_state.update_crit_exponent
  split <;> rfl

/-- Projection fact: `update_move_lim` does not change the temperature. -/
theorem update_move_lim_t_eq (s : t_annealing_state) (success_target : ℚ) :
    (s.update_move_lim success_target).t = s.t := rfl

/-- Projection facts: `update_rlim` leaves the private range-limit
constants untouched. -/
theorem update_rlim_const_eq (s : t_annealing_state) :
    s.update_rlim.UPPER_RLIM = s.UPPER_RLIM ∧ s.update_rlim.FINAL_RLIM = s.FINAL_RLIM :=
  ⟨rfl, rfl⟩

/-- One `update_rlim` step lands `rlim` inside `[FINAL_RLIM, UPPER_RLIM]`
whenever that interval is nonempty, regardless of the previous `rlim`. -/
theorem update_rlim_mem (s : t_annealing_state) (h : s.FINAL_RLIM ≤ s.UPPER_RLIM) :
    s.FINAL_RLIM ≤ s.update_rlim.rlim ∧ s.update_rlim.rlim ≤ s.UPPER_RLIM := by
  unfold t_annealing_state.update_rlim
  exact ⟨le_max_left _ _, max_le h (min_le_right _ _)⟩

/-- Invariant carried through any sequence of `update_rlim` calls with
arbitrary observed success rates: the private constants are unchanged
and `rlim` stays inside `[FINAL_RLIM, UPPER_RLIM]`. -/
theorem run_rlim_updates_inv (rates : List ℚ) (s : t_annealing_state)
    (hUF : s.FINAL_RLIM ≤ s.UPPER_RLIM)
    (hlo : s.FINAL_RLIM ≤ s.rlim) (hhi : s.rlim ≤ s.UPPER_RLIM) :
    (run_rlim_updates s rates).UPPER_RLIM = s.UPPER_RLIM ∧
    (run_rlim_updates s rates).FINAL_RLIM = s.FINAL_RLIM ∧
    s.FINAL_RLIM ≤ (run_rlim_updates s rates).rlim ∧
    (run_rlim_updates s rates).rlim ≤ s.UPPER_RLIM := by
  induction rates generalizing s with
  | nil => exact ⟨rfl, rfl, hlo, hhi⟩
  | cons r rs ih =>
      have hmem := update_rlim_mem { s with success_rate := r } hUF
      exact ih (t_annealing_state.update_rlim { s with success_rate := r })
        hUF hmem.1 hmem.2

/-- C1: for every `t_placer_costs` with `bb_cost > 0` and
`timing_cost > 0`, `update_norm_factors()` sets
`bb_cost_norm = 1 / bb_cost` and
`timing_cost_norm = min(1 / timing_cost, MAX_INV_TIMING_COST)` with
`MAX_INV_TIMING_COST = 1e9`; in particular, whenever
`1 / timing_cost > 1e9` the stored `timing_cost_norm` equals `1e9`. -/
theorem update_norm_factors_positive_costs (c : t_placer_costs)
    (hbb : 0 < c.bb_cost) (htc : 0 < c.timing_cost) :
    c.update_norm_factors.bb_cost_norm = 1 / c.bb_cost ∧
    c.update_norm_factors.timing_cost_norm = min (1 / c.timing_cost) MAX_INV_TIMING_COST ∧
    (MAX_INV_TIMING_COST < 1 / c.timing_cost →
      c.update_norm_factors.timing_cost_norm = MAX_INV_TIMING_COST) := by
  refine ⟨?_, ?_, ?_⟩
  · simp [t_placer_costs.update_norm_factors, hbb.ne']
  · simp [t_placer_costs.update_norm_factors, htc.ne']
  · intro h
    simp only [t_placer_costs.update_norm_factors, if_neg htc.ne']
    exact min_eq_right h.le

/-- Witness for C1 at `bb_cost = 100`, `timing_cost = 1e-12`:
`bb_cost_norm = 1/100` and, since `1/timing_cost = 1e12 > 1e9`,
`timing_cost_norm = 1e9`. -/
theorem update_norm_factors_positive_costs_witness :
    ((⟨0, 100, 1 / 10 ^ 12, 0, 0, e_place_algorithm.CRITICALITY_TIMING_PLACE⟩ :
        t_placer_costs).update_norm_factors).bb_cost_norm = 1 / 100 ∧
    ((⟨0, 100, 1 / 10 ^ 12, 0, 0, e_place_algorithm.CRITICALITY_TIMING_PLACE⟩ :
        t_placer_costs).update_norm_factors).timing_cost_norm = MAX_INV_TIMING_COST := by
  have h := update_norm_factors_positive_costs
    (⟨0, 100, 1 / 10 ^ 12, 0, 0, e_place_algorithm.CRITICALITY_TIMING_PLACE⟩ : t_placer_costs)
    (show (0:ℚ) < 100 by norm_num) (show (0:ℚ) < 1 / 10 ^ 12 by norm_num)
  exact ⟨h.1, h.2.2 (show MAX_INV_TIMING_COST < 1 / ((1:ℚ) / 10 ^ 12) by
    norm_num [MAX_INV_TIMING_COST])⟩

/-- C7: if `bb_cost == 0` (respectively `timing_cost == 0`) when
`update_norm_factors()` is called, the corresponding normalization
factor is set to the fallback constant `1.0` instead of performing the
division; on every path the factors are produced without dividing by
zero (checked division always succeeds and agrees with the stored
values), so neither norm field can become NaN or Inf. -/
theorem update_norm_factors_zero_guard (c : t_placer_costs) :
    bb_norm_checked c = some c.update_norm_factors.bb_cost_norm ∧
    timing_norm_checked c = some c.update_norm_factors.timing_cost_norm ∧
    (c.bb_cost = 0 → c.update_norm_factors.bb_cost_norm = 1) ∧
    (c.timing_cost = 0 → c.update_norm_factors.timing_cost_norm = 1) := by
  refine ⟨?_, ?_, ?_, ?_⟩
  · by_cases h : c.bb_cost = 0 <;>
      simp [bb_norm_checked, qdiv?, t_placer_costs.update_norm_factors, h]
  · by_cases h : c.timing_cost = 0 <;>
      simp [timing_norm_checked, qdiv?, t_placer_costs.update_norm_factors, h]
  · intro h
    simp [t_placer_costs.update_norm_factors, h]
  · intro h
    simp [t_placer_costs.update_norm_factors, h]

/-- Witness for C7 at `bb_cost = 0`, `timing_cost = 0`: both norm
factors become the fallback `1.0`. -/
theorem update_norm_factors_zero_guard_witness :
    ((⟨5, 0, 0, 3, 4, e_place_algorithm.BOUNDING_BOX_PLACE⟩ :
        t_placer_costs).update_norm_factors).bb_cost_norm = 1 ∧
    ((⟨5, 0, 0, 3, 4, e_place_algorithm.BOUNDING_BOX_PLACE⟩ :
        t_placer_costs).update_norm_factors).timing_cost_norm = 1 :=
  ⟨(update_norm_factors_zero_guard
      (⟨5, 0, 0, 3, 4, e_place_algorithm.BOUNDING_BOX_PLACE⟩ : t_placer_costs)).2.2.1 rfl,
   (update_norm_factors_zero_guard
      (⟨5, 0, 0, 3, 4, e_place_algorithm.BOUNDING_BOX_PLACE⟩ : t_placer_costs)).2.2.2 rfl⟩

/-- C9: `update_norm_factors()` is idempotent when the cost fields are
unchanged — applying it twice equals applying it once — and it mutates
only the two norm fields, leaving `cost`, `bb_cost`, `timing_cost` and
`place_algorithm` untouched. -/
theorem update_norm_factors_idempotent (c : t_placer_costs) :
    c.update_norm_factors.update_norm_factors = c.update_norm_factors ∧
    c.update_norm_factors.cost = c.cost ∧
    c.update_norm_factors.bb_cost = c.bb_cost ∧
    c.update_norm_factors.timing_cost = c.timing_cost ∧
    c.update_norm_factors.place_algorithm = c.place_algorithm := by
  cases c with
  | mk cost bb_cost timing_cost bb_cost_norm timing_cost_norm place_algorithm =>
      exact ⟨rfl, rfl, rfl, rfl, rfl⟩

/-- C10: the inline `t_placer_costs` constructor initializes only the
private `place_algorithm` member; the five public `double` fields are
left with whatever indeterminate values they had, so a freshly
constructed `t_placer_costs` carries no meaningful cost or normalization
values until the caller assigns them. -/
theorem placer_costs_ctor_initializes_only_algorithm
    (algo : e_place_algorithm) (indet : t_placer_costs_indet) :
    (t_placer_costs.ctor algo indet).place_algorithm = algo ∧
    (t_placer_costs.ctor algo indet).cost = indet.cost ∧
    (t_placer_costs.ctor algo indet).bb_cost = indet.bb_cost ∧
    (t_placer_costs.ctor algo indet).timing_cost = indet.timing_cost ∧
    (t_placer_costs.ctor algo indet).bb_cost_norm = indet.bb_cost_norm ∧
    (t_placer_costs.ctor algo indet).timing_cost_norm = indet.timing_cost_norm :=
  ⟨rfl, rfl, rfl, rfl, rfl, rfl⟩

/-- C8: the `t_annealing_state` constructor establishes `t = first_t`,
`restart_t = first_t`, `rlim = first_rlim = UPPER_RLIM`,
`move_lim_max = move_lim = first_move_lim`,
`crit_exponent = first_crit_exponent`, `alpha` from the schedule
configuration, `success_rate = 0`, `num_temps = 0`, and
`INVERSE_DELTA_RLIM = 1 / (UPPER_RLIM - FINAL_RLIM)`. -/
theorem annealing_state_ctor_postcondition (annealing_sched : t_annealing_sched)
    (first_t first_rlim : ℚ) (first_move_lim : ℤ) (first_crit_exponent : ℚ) :
    (t_annealing_state.ctor annealing_sched first_t first_rlim first_move_lim
        first_crit_exponent).t = first_t ∧
    (t_annealing_state.ctor annealing_sched first_t first_rlim first_move_lim
        first_crit_exponent).restart_t = first_t ∧
    (t_annealing_state.ctor annealing_sched first_t first_rlim first_move_lim
        first_crit_exponent).rlim = first_rlim ∧
    (t_annealing_state.ctor annealing_sched first_t first_rlim first_move_lim
        first_crit_exponent).UPPER_RLIM = first_rlim ∧
    (t_annealing_state.ctor annealing_sched first_t first_rlim first_move_lim
        first_crit_exponent).move_lim_max = first_move_lim ∧
    (t_annealing_state.ctor annealing_sched first_t first_rlim first_move_lim
        first_crit_exponent).move_lim = first_move_lim ∧
    (t_annealing_state.ctor annealing_sched first_t first_rlim first_move_lim
        first_crit_exponent).crit_exponent = first_crit_exponent ∧
    (t_annealing_state.ctor annealing_sched first_t first_rlim first_move_lim
        first_crit_exponent).alpha = annealing_sched.alpha_t ∧
    (t_annealing_state.ctor annealing_sched first_t first_rlim first_move_lim
        first_crit_exponent).success_rate = 0 ∧
    (t_annealing_state.ctor annealing_sched first_t first_rlim first_move_lim
        first_crit_exponent).num_temps = 0 ∧
    (t_annealing_state.ctor annealing_sched first_t first_rlim first_move_lim
        first_crit_exponent).INVERSE_DELTA_RLIM
      = 1 / ((t_annealing_state.ctor annealing_sched first_t first_rlim first_move_lim
          first_crit_exponent).UPPER_RLIM
        - (t_annealing_state.ctor annealing_sched first_t first_rlim first_move_lim
          first_crit_exponent).FINAL_RLIM) :=
  ⟨rfl, rfl, rfl, rfl, rfl, rfl, rfl, rfl, rfl, rfl, rfl⟩

/-- C4: under a manual (user) schedule, `outer_loop_update` multiplies
the temperature by `alpha` exactly: the updated state's `t` equals
`alpha * t`. -/
theorem outer_loop_update_manual_decay (s : t_annealing_state)
    (costs : t_placer_costs) (placer_opts : t_placer_opts)
    (annealing_sched : t_annealing_sched)
    (h : annealing_sched.type = e_sched_type.USER_SCHED) :
    (s.outer_loop_update costs placer_opts annealing_sched).1.t = s.alpha * s.t := by
  simp only [t_annealing_state.outer_loop_update, h]
  rw [update_move_lim_t_eq, update_crit_exponent_t_eq, update_rlim_t_eq]
  exact mul_comm s.t s.alpha

/-- Witness for C4: a state with `t = 100`, `alpha = 0.9` under a manual
schedule yields `t_next = 90` after `outer_loop_update`. -/
theorem outer_loop_update_manual_decay_witness :
    (((⟨100, 20, 9 / 10, 100, 1, 1000, 1000, 1 / 2, 0, 20, 1, 1 / 19⟩ :
          t_annealing_state).outer_loop_update
        (⟨0, 1, 1, 1, 1, e_place_algorithm.BOUNDING_BOX_PLACE⟩ : t_placer_costs)
        (⟨1, 8, 44 / 100, e_place_algorithm.BOUNDING_BOX_PLACE⟩ : t_placer_opts)
        (⟨e_sched_type.USER_SCHED, 9 / 10, 1 / 100, 1 / 100⟩ : t_annealing_sched)).1).t = 90 := by
  have h := outer_loop_update_manual_decay
    (⟨100, 20, 9 / 10, 100, 1, 1000, 1000, 1 / 2, 0, 20, 1, 1 / 19⟩ : t_annealing_state)
    (⟨0, 1, 1, 1, 1, e_place_algorithm.BOUNDING_BOX_PLACE⟩ : t_placer_costs)
    (⟨1, 8, 44 / 100, e_place_algorithm.BOUNDING_BOX_PLACE⟩ : t_placer_opts)
    (⟨e_sched_type.USER_SCHED, 9 / 10, 1 / 100, 1 / 100⟩ : t_annealing_sched) rfl
  rw [h]
  norm_num

/-- C2: `update_move_lim(success_target)` stores
`clamp(move_lim_max * success_target / max(success_rate, eps), 1, move_lim_max)`;
for any `success_rate` in `[0, 1]` — zero included — the result satisfies
`1 ≤ move_lim ≤ move_lim_max` and the epsilon-floored denominator makes
the division always succeed (no division by zero). -/
theorem update_move_lim_bounds (s : t_annealing_state) (success_target : ℚ)
    (h0 : 0 ≤ s.success_rate) (h1 : s.success_rate ≤ 1) (hm : 1 ≤ s.move_lim_max) :
    (s.update_move_lim success_target).move_lim
        = max 1 (min s.move_lim_max
            ⌊(s.move_lim_max : ℚ) * success_target / max s.success_rate EPS_SUCCESS⌋) ∧
    1 ≤ (s.update_move_lim success_target).move_lim ∧
    (s.update_move_lim success_target).move_lim ≤ s.move_lim_max ∧
    (move_lim_raw? s success_target).isSome := by
  have hpos : (0 : ℚ) < max s.success_rate EPS_SUCCESS :=
    lt_of_lt_of_le (by norm_num [EPS_SUCCESS]) (le_max_right _ _)
  refine ⟨rfl, ?_, ?_, ?_⟩
  · exact le_max_left _ _
  · exact max_le hm (min_le_left _ _)
  · simp [move_lim_raw?, qdiv?, hpos.ne']

/-- Witness for C2 at `success_rate = 0`, `move_lim_max = 1000`: the
bounds hold and the checked division succeeds. -/
theorem update_move_lim_bounds_witness :
    1 ≤ ((⟨100, 20, 9 / 10, 100, 1, 1000, 500, 0, 0, 20, 1, 1 / 19⟩ :
        t_annealing_state).update_move_lim (44 / 100)).move_lim ∧
    ((⟨100, 20, 9 / 10, 100, 1, 1000, 500, 0, 0, 20, 1, 1 / 19⟩ :
        t_annealing_state).update_move_lim (44 / 100)).move_lim ≤ 1000 ∧
    (move_lim_raw? (⟨100, 20, 9 / 10, 100, 1, 1000, 500, 0, 0, 20, 1, 1 / 19⟩ :
        t_annealing_state) (44 / 100)).isSome := by
  have h := update_move_lim_bounds
    (⟨100, 20, 9 / 10, 100, 1, 1000, 500, 0, 0, 20, 1, 1 / 19⟩ : t_annealing_state)
    (44 / 100) (show (0 : ℚ) ≤ 0 by norm_num) (show (0 : ℚ) ≤ 1 by norm_num)
    (show (1 : ℤ) ≤ 1000 by norm_num)
  exact ⟨h.2.1, h.2.2.1, h.2.2.2⟩

/-- C3: for a state constructed with `UPPER_RLIM = first_rlim` (with
`first_rlim` at least the final limit `1`), after any number of
`update_rlim()` calls under arbitrary observed success rates, `rlim`
stays inside `[FINAL_RLIM, UPPER_RLIM]` and the construction-time
`UPPER_RLIM` is itself unchanged, so `rlim` never exceeds it. -/
theorem rlim_invariant_after_updates (annealing_sched : t_annealing_sched)
    (first_t first_rlim : ℚ) (first_move_lim : ℤ) (first_crit_exponent : ℚ)
    (rates : List ℚ) (h : 1 ≤ first_rlim) :
    (run_rlim_updates (t_annealing_state.ctor annealing_sched first_t first_rlim
        first_move_lim first_crit_exponent) rates).UPPER_RLIM
      = (t_annealing_state.ctor annealing_sched first_t first_rlim
          first_move_lim first_crit_exponent).UPPER_RLIM ∧
    (run_rlim_updates (t_annealing_state.ctor annealing_sched first_t first_rlim
        first_move_lim first_crit_exponent) rates).FINAL_RLIM
      ≤ (run_rlim_updates (t_annealing_state.ctor annealing_sched first_t first_rlim
          first_move_lim first_crit_exponent) rates).rlim ∧
    (run_rlim_updates (t_annealing_state.ctor annealing_sched first_t first_rlim
        first_move_lim first_crit_exponent) rates).rlim
      ≤ (t_annealing_state.ctor annealing_sched first_t first_rlim
          first_move_lim first_crit_exponent).UPPER_RLIM := by
  have hinv := run_rlim_updates_inv rates
    (t_annealing_state.ctor annealing_sched first_t first_rlim first_move_lim
      first_crit_exponent) h h le_rfl
  refine ⟨hinv.1, ?_, hinv.2.2.2⟩
  rw [hinv.2.1]
  exact hinv.2.2.1

/-- Witness for C3: constructed with `first_rlim = 20` and updated three
times with success rates `1/2`, `0`, `1`, the range limit stays in
`[1, 20]` and `UPPER_RLIM` stays `20`. -/
theorem rlim_invariant_after_updates_witness :
    (1 : ℚ) ≤ 20 ∧
    ((run_rlim_updates (t_annealing_state.ctor
          (⟨e_sched_type.USER_SCHED, 9 / 10, 1 / 100, 1 / 100⟩ : t_annealing_sched)
          50 20 1000 1) [1 / 2, 0, 1]).UPPER_RLIM
        = (t_annealing_state.ctor
            (⟨e_sched_type.USER_SCHED, 9 / 10, 1 / 100, 1 / 100⟩ : t_annealing_sched)
            50 20 1000 1).UPPER_RLIM ∧
      (run_rlim_updates (t_annealing_state.ctor
          (⟨e_sched_type.USER_SCHED, 9 / 10, 1 / 100, 1 / 100⟩ : t_annealing_sched)
          50 20 1000 1) [1 / 2, 0, 1]).FINAL_RLIM
        ≤ (run_rlim_updates (t_annealing_state.ctor
            (⟨e_sched_type.USER_SCHED, 9 / 10, 1 / 100, 1 / 100⟩ : t_annealing_sched)
            50 20 1000 1) [1 / 2, 0, 1]).rlim ∧
      (run_rlim_updates (t_annealing_state.ctor
          (⟨e_sched_type.USER_SCHED, 9 / 10, 1 / 100, 1 / 100⟩ : t_annealing_sched)
          50 20 1000 1) [1 / 2, 0, 1]).rlim
        ≤ (t_annealing_state.ctor
            (⟨e_sched_type.USER_SCHED, 9 / 10, 1 / 100, 1 / 100⟩ : t_annealing_sched)
            50 20 1000 1).UPPER_RLIM) :=
  ⟨by norm_num,
   rlim_invariant_after_updates
     (⟨e_sched_type.USER_SCHED, 9 / 10, 1 / 100, 1 / 100⟩ : t_annealing_sched)
     50 20 1000 1 [1 / 2, 0, 1] (by norm_num)⟩

/-- C5: when `UPPER_RLIM > FINAL_RLIM`, `update_crit_exponent` sets
`crit_exponent` to the linear interpolation between the configured
minimum and maximum exponent bounds with interpolation fraction
`(UPPER_RLIM - rlim) * INVERSE_DELTA_RLIM`; when
`UPPER_RLIM == FINAL_RLIM` the exponent is held at its current (initial)
value and no zero-denominator interpolation is performed. -/
theorem update_crit_exponent_interpolation (s : t_annealing_state)
    (placer_opts : t_placer_opts) :
    (s.FINAL_RLIM < s.UPPER_RLIM →
      (s.update_crit_exponent placer_opts).crit_exponent
        = placer_opts.crit_exponent_min
            + (s.UPPER_RLIM - s.rlim) * s.INVERSE_DELTA_RLIM
              * (placer_opts.crit_exponent_max - placer_opts.crit_exponent_min)) ∧
    (s.UPPER_RLIM = s.FINAL_RLIM →
      (s.update_crit_exponent placer_opts).crit_exponent = s.crit_exponent) := by
  constructor
  · intro hlt
    simp only [t_annealing_state.update_crit_exponent, if_neg (ne_of_gt hlt)]
  · intro heq
    simp only [t_annealing_state.update_crit_exponent, if_pos heq]

/-- Witness for C5: with `UPPER_RLIM = 20`, `FINAL_RLIM = 1`,
`INVERSE_DELTA_RLIM = 1/19`, `rlim = 10` and exponent bounds `[1, 20]`,
the interpolated exponent is `1 + 10 * (1/19) * 19 = 11`. -/
theorem update_crit_exponent_interpolation_witness :
    ((⟨100, 10, 9 / 10, 100, 1, 1000, 1000, 1 / 2, 0, 20, 1, 1 / 19⟩ :
        t_annealing_state).update_crit_exponent
      (⟨1, 20, 44 / 100, e_place_algorithm.CRITICALITY_TIMING_PLACE⟩ :
        t_placer_opts)).crit_exponent = 11 := by
  have h := (update_crit_exponent_interpolation
    (⟨100, 10, 9 / 10, 100, 1, 1000, 1000, 1 / 2, 0, 20, 1, 1 / 19⟩ : t_annealing_state)
    (⟨1, 20, 44 / 100, e_place_algorithm.CRITICALITY_TIMING_PLACE⟩ :
      t_placer_opts)).1 (show (1 : ℚ) < 20 by norm_num)
  rw [h]
  norm_num

/-- C6: for `n > 0`, the value under the square root in `get_std_dev`
is exactly `max(sum_x_squared / n - av_x^2, 0)`; for `n = 0` the
function returns the sentinel `0`; the clamped radicand is nonnegative
for every input, so the square root is a genuine real root (the
function never produces a NaN and never raises). -/
theorem get_std_dev_rad_spec (n : ℤ) (sum_x_squared av_x : ℚ) :
    (0 < n → get_std_dev_rad n sum_x_squared av_x
        = max (sum_x_squared / (n : ℚ) - av_x ^ 2) 0) ∧
    (n = 0 → get_std_dev_rad n sum_x_squared av_x = 0) ∧
    0 ≤ get_std_dev_rad n sum_x_squared av_x ∧
    Real.sqrt ((get_std_dev_rad n sum_x_squared av_x : ℚ) : ℝ)
        * Real.sqrt ((get_std_dev_rad n sum_x_squared av_x : ℚ) : ℝ)
      = ((get_std_dev_rad n sum_x_squared av_x : ℚ) : ℝ) := by
  have hnonneg : 0 ≤ get_std_dev_rad n sum_x_squared av_x := by
    unfold get_std_dev_rad
    split
    · exact le_refl 0
    · exact le_max_right _ _
  refine ⟨?_, ?_, hnonneg, ?_⟩
  · intro h
    simp [get_std_dev_rad, h.ne']
  · intro h
    simp [get_std_dev_rad, h]
  · exact Real.mul_self_sqrt (by exact_mod_cast hnonneg)

/-- Witness for C6: `get_std_dev(4, 30, 2)` has radicand
`30/4 - 4 = 7/2` (standard deviation `sqrt(3.5)`), and a slightly
negative raw variance such as `n = 2`, `sum_x_squared = 7.9999999`,
`av_x = 2` is clamped to radicand `0`. -/
theorem get_std_dev_rad_spec_witness :
    (0 : ℤ) < 4 ∧ get_std_dev_rad 4 30 2 = 7 / 2 ∧
    get_std_dev_rad 2 (79999999 / 10 ^ 7) 2 = 0 := by
  refine ⟨by norm_num, ?_, ?_⟩
  · rw [(get_std_dev_rad_spec 4 30 2).1 (by norm_num)]
    norm_num
  · rw [(get_std_dev_rad_spec 2 (79999999 / 10 ^ 7) 2).1 (by norm_num)]
    rw [max_eq_right (by norm_num)]

end PlaceUtil
